import Mathlib

/-!
Shallow embedding of the experiment decision engine in
`src/analysis/stats.py`: the two-proportion z-test, Wald confidence
interval, and the ship/no-ship decision policy.  Real arithmetic is
modelled over `ℚ`; the transcendental functions used by the source
(`math.sqrt`, `scipy.stats.norm.cdf`, `scipy.stats.norm.ppf`) and the
numeric string formatters are parameters of the model, and Python
`round(x, k)` is modelled by round-half-to-even on `ℚ`.  A call that
would raise in Python (`ZeroDivisionError`, `math.sqrt` of a negative
argument) is modelled as `none`.
-/

namespace ABStats

/-- Round a rational to the nearest integer, ties to even: the rounding
rule of Python `round`. -/
def roundHalfEven (x : ℚ) : ℤ :=
  if x - ⌊x⌋ < 1/2 then ⌊x⌋
  else if 1/2 < x - ⌊x⌋ then ⌊x⌋ + 1
  else if ⌊x⌋ % 2 = 0 then ⌊x⌋ else ⌊x⌋ + 1

/-- Python `round(x, k)`: round to `k` decimal places, ties to even. -/
def roundTo (k : ℕ) (x : ℚ) : ℚ := (roundHalfEven (x * 10 ^ k) : ℚ) / 10 ^ k

theorem le_roundHalfEven (x : ℚ) : ⌊x⌋ ≤ roundHalfEven x := by
  unfold roundHalfEven
  split_ifs <;> omega

theorem roundHalfEven_le (x : ℚ) : roundHalfEven x ≤ ⌊x⌋ + 1 := by
  unfold roundHalfEven
  split_ifs <;> omega

theorem roundHalfEven_mono {x y : ℚ} (h : x ≤ y) :
    roundHalfEven x ≤ roundHalfEven y := by
  have hf : ⌊x⌋ ≤ ⌊y⌋ := Int.floor_mono h
  rcases lt_or_eq_of_le hf with hlt | heq
  · calc roundHalfEven x ≤ ⌊x⌋ + 1 := roundHalfEven_le x
      _ ≤ ⌊y⌋ := by omega
      _ ≤ roundHalfEven y := le_roundHalfEven y
  · unfold roundHalfEven
    rw [← heq]
    have hr : x - ⌊x⌋ ≤ y - ⌊x⌋ := by linarith
    split_ifs <;> first | omega | linarith

theorem roundTo_mono (k : ℕ) {x y : ℚ} (h : x ≤ y) :
    roundTo k x ≤ roundTo k y := by
  unfold roundTo
  have h10 : (0:ℚ) < 10 ^ k := by positivity
  refine (div_le_div_iff_of_pos_right h10).mpr ?_
  exact_mod_cast roundHalfEven_mono (mul_le_mul_of_nonneg_right h (le_of_lt h10))

/-- Raw counts for one variant (the `VariantStats` dataclass).  The
dataclass performs no validation, so the counts are arbitrary integers. -/
structure VariantStats where
  name : String
  users : ℤ
  conversions : ℤ
deriving Repr, DecidableEq

/-- The `conversion_rate` property: `conversions / users`, defined as `0.0`
when `users == 0`. -/
def VariantStats.conversion_rate (v : VariantStats) : ℚ :=
  if v.users = 0 then 0 else (v.conversions : ℚ) / (v.users : ℚ)

/-- Full statistical result of an A/B experiment comparison
(the `ExperimentResult` dataclass). -/
structure ExperimentResult where
  experiment_id : String
  control : VariantStats
  treatment : VariantStats
  absolute_uplift : ℚ
  relative_uplift : ℚ
  p_value : ℚ
  confidence_level : ℚ
  ci_lower : ℚ
  ci_upper : ℚ
  is_significant : Bool
  decision : String
  reason : String
deriving Repr, DecidableEq

/-- Stand-ins for Python's numeric-to-string conversions used in the
f-strings of `stats.py`: `:.4f`, `:+.4f`, `:+.1%`, `:.2%`, plain `str` of
a float, and plain `str` of an int.  The exact decimal rendering of IEEE
floats is outside the model, so the renderers are parameters. -/
structure FloatFmt where
  f4 : ℚ → String
  s4 : ℚ → String
  pct1 : ℚ → String
  pct2 : ℚ → String
  plainQ : ℚ → String
  plainZ : ℤ → String

/-- Reason string of the not-significant branch of `_make_decision`. -/
def not_significant_reason (fmt : FloatFmt) (p_value alpha relative_uplift : ℚ) : String :=
  "Not statistically significant (p=" ++ fmt.f4 p_value ++ " >= " ++ fmt.plainQ alpha ++
    "). Cannot confidently attribute the observed " ++ fmt.pct1 relative_uplift ++
    " change to the treatment."

/-- Reason string of the SHIP branch of `_make_decision`. -/
def ship_reason (fmt : FloatFmt) (p_value relative_uplift ci_lower ci_upper : ℚ) : String :=
  "Statistically significant positive effect (p=" ++ fmt.f4 p_value ++
    "). Treatment increases conversion by " ++ fmt.pct1 relative_uplift ++
    " (95% CI: [" ++ fmt.s4 ci_lower ++ ", " ++ fmt.s4 ci_upper ++ "])."

/-- Reason string of the significant-negative branch of `_make_decision`. -/
def negative_effect_reason (fmt : FloatFmt) (p_value relative_uplift : ℚ) : String :=
  "Statistically significant NEGATIVE effect (p=" ++ fmt.f4 p_value ++
    "). Treatment decreases conversion by " ++ fmt.pct1 relative_uplift ++ "."

/-- Reason string of the direction-uncertain fallthrough of `_make_decision`. -/
def direction_uncertain_reason (fmt : FloatFmt) (p_value ci_lower ci_upper : ℚ) : String :=
  "Significant result (p=" ++ fmt.f4 p_value ++ ") but confidence interval " ++
    "crosses zero [" ++ fmt.s4 ci_lower ++ ", " ++ fmt.s4 ci_upper ++
    "]. Effect direction uncertain."

/-- Reason string of the insufficient-sample branch of `analyze_experiment`. -/
def insufficient_reason (fmt : FloatFmt) (min_sample_size n_c n_t : ℤ) : String :=
  "Insufficient sample size (need >=" ++ fmt.plainZ min_sample_size ++
    " per variant, got control=" ++ fmt.plainZ n_c ++ ", treatment=" ++
    fmt.plainZ n_t ++ ")"

/-- The `_make_decision` function: ordered decision table, first match wins. -/
def make_decision (fmt : FloatFmt) (is_significant : Bool)
    (absolute_uplift relative_uplift p_value ci_lower ci_upper confidence_level : ℚ) :
    String × String :=
  if is_significant = false then
    ("DO NOT SHIP", not_significant_reason fmt p_value (1 - confidence_level) relative_uplift)
  else if absolute_uplift > 0 ∧ ci_lower > 0 then
    ("SHIP", ship_reason fmt p_value relative_uplift ci_lower ci_upper)
  else if absolute_uplift < 0 ∧ ci_upper < 0 then
    ("DO NOT SHIP", negative_effect_reason fmt p_value relative_uplift)
  else
    ("DO NOT SHIP", direction_uncertain_reason fmt p_value ci_lower ci_upper)

/-- Local `absolute_uplift = p_t - p_c` of `analyze_experiment`. -/
def absolute_uplift_raw (control treatment : VariantStats) : ℚ :=
  treatment.conversion_rate - control.conversion_rate

/-- Local `relative_uplift` of `analyze_experiment`:
`absolute_uplift / p_c if p_c > 0 else 0.0`. -/
def relative_uplift_raw (control treatment : VariantStats) : ℚ :=
  if control.conversion_rate > 0 then
    absolute_uplift_raw control treatment / control.conversion_rate
  else 0

/-- Pooled proportion under the null hypothesis. -/
def p_pool (control treatment : VariantStats) : ℚ :=
  ((control.conversions + treatment.conversions : ℤ) : ℚ) /
    ((control.users + treatment.users : ℤ) : ℚ)

/-- Argument of `math.sqrt` in the pooled test standard error:
`p_pool * (1 - p_pool) * (1/n_c + 1/n_t)`. -/
def se_test_sq (control treatment : VariantStats) : ℚ :=
  p_pool control treatment * (1 - p_pool control treatment) *
    (1 / (control.users : ℚ) + 1 / (treatment.users : ℚ))

/-- The `z_stat` local: `0.0` when `se_test == 0`, else `absolute_uplift / se_test`. -/
def z_stat_raw (sqrt : ℚ → ℚ) (control treatment : VariantStats) : ℚ :=
  if sqrt (se_test_sq control treatment) = 0 then 0
  else absolute_uplift_raw control treatment / sqrt (se_test_sq control treatment)

/-- The `p_value` local: `1.0` when `se_test == 0`, else the two-tailed
`2 * (1 - Φ(|z_stat|))`. -/
def p_value_raw (sqrt cdf : ℚ → ℚ) (control treatment : VariantStats) : ℚ :=
  if sqrt (se_test_sq control treatment) = 0 then 1
  else 2 * (1 - cdf |z_stat_raw sqrt control treatment|)

/-- Argument of `math.sqrt` in the unpooled CI standard error:
`p_c(1-p_c)/n_c + p_t(1-p_t)/n_t`. -/
def se_ci_sq (control treatment : VariantStats) : ℚ :=
  control.conversion_rate * (1 - control.conversion_rate) / (control.users : ℚ) +
    treatment.conversion_rate * (1 - treatment.conversion_rate) / (treatment.users : ℚ)

/-- Critical value `z_crit = ppf(1 - (1 - confidence_level)/2)`. -/
def z_crit (ppf : ℚ → ℚ) (confidence_level : ℚ) : ℚ :=
  ppf (1 - (1 - confidence_level) / 2)

/-- Lower CI bound before rounding: `absolute_uplift - z_crit * se_ci`. -/
def ci_lower_raw (sqrt ppf : ℚ → ℚ) (control treatment : VariantStats)
    (confidence_level : ℚ) : ℚ :=
  absolute_uplift_raw control treatment -
    z_crit ppf confidence_level * sqrt (se_ci_sq control treatment)

/-- Upper CI bound before rounding: `absolute_uplift + z_crit * se_ci`. -/
def ci_upper_raw (sqrt ppf : ℚ → ℚ) (control treatment : VariantStats)
    (confidence_level : ℚ) : ℚ :=
  absolute_uplift_raw control treatment +
    z_crit ppf confidence_level * sqrt (se_ci_sq control treatment)

/-- The `is_significant` local: `p_value < (1 - confidence_level)`. -/
def significant_raw (sqrt cdf : ℚ → ℚ) (control treatment : VariantStats)
    (confidence_level : ℚ) : Bool :=
  decide (p_value_raw sqrt cdf control treatment < 1 - confidence_level)

/-- The `(decision, reason)` pair computed by `analyze_experiment` from the
unrounded statistics. -/
def decision_raw (sqrt cdf ppf : ℚ → ℚ) (fmt : FloatFmt)
    (control treatment : VariantStats) (confidence_level : ℚ) : String × String :=
  make_decision fmt (significant_raw sqrt cdf control treatment confidence_level)
    (absolute_uplift_raw control treatment) (relative_uplift_raw control treatment)
    (p_value_raw sqrt cdf control treatment)
    (ci_lower_raw sqrt ppf control treatment confidence_level)
    (ci_upper_raw sqrt ppf control treatment confidence_level) confidence_level

/-- The `analyze_experiment` function.  `sqrt`, `cdf` and `ppf` stand for
`math.sqrt`, `scipy.stats.norm.cdf` and `scipy.stats.norm.ppf`; `fmt`
renders numbers inside the reason strings.  `none` models a raised
exception: `ZeroDivisionError` when `n_c + n_t == 0` (computing `p_pool`),
`ZeroDivisionError` when `n_c == 0` or `n_t == 0` (computing `1/n_c + 1/n_t`),
and `ValueError` from `math.sqrt` on a negative argument. -/
def analyze_experiment (sqrt cdf ppf : ℚ → ℚ) (fmt : FloatFmt)
    (experiment_id : String) (control treatment : VariantStats)
    (confidence_level : ℚ) (min_sample_size : ℤ) : Option ExperimentResult :=
  if control.users < min_sample_size ∨ treatment.users < min_sample_size then
    some { experiment_id := experiment_id, control := control, treatment := treatment,
           absolute_uplift := absolute_uplift_raw control treatment,
           relative_uplift := relative_uplift_raw control treatment,
           p_value := 1, confidence_level := confidence_level,
           ci_lower := 0, ci_upper := 0,
           is_significant := false, decision := "INCONCLUSIVE",
           reason := insufficient_reason fmt min_sample_size control.users treatment.users }
  else if control.users + treatment.users = 0 then none
  else if control.users = 0 ∨ treatment.users = 0 then none
  else if se_test_sq control treatment < 0 then none
  else if se_ci_sq control treatment < 0 then none
  else
    some { experiment_id := experiment_id, control := control, treatment := treatment,
           absolute_uplift := roundTo 6 (absolute_uplift_raw control treatment),
           relative_uplift := roundTo 4 (relative_uplift_raw control treatment),
           p_value := roundTo 6 (p_value_raw sqrt cdf control treatment),
           confidence_level := confidence_level,
           ci_lower := roundTo 6 (ci_lower_raw sqrt ppf control treatment confidence_level),
           ci_upper := roundTo 6 (ci_upper_raw sqrt ppf control treatment confidence_level),
           is_significant := significant_raw sqrt cdf control treatment confidence_level,
           decision := (decision_raw sqrt cdf ppf fmt control treatment confidence_level).1,
           reason := (decision_raw sqrt cdf ppf fmt control treatment confidence_level).2 }

/-- The string `"=" * 60` used by `format_report`. -/
def eqLine : String := String.mk (List.replicate 60 '=')

/-- The list of report lines built by `format_report`. -/
def format_report_lines (fmt : FloatFmt) (result : ExperimentResult) : List String :=
  [ eqLine,
    "EXPERIMENT ANALYSIS: " ++ result.experiment_id,
    eqLine,
    "",
    "VARIANT SUMMARY",
    "  Control:   " ++ fmt.plainZ result.control.conversions ++ "/" ++
      fmt.plainZ result.control.users ++ " = " ++
      fmt.pct2 result.control.conversion_rate ++ " conversion rate",
    "  Treatment: " ++ fmt.plainZ result.treatment.conversions ++ "/" ++
      fmt.plainZ result.treatment.users ++ " = " ++
      fmt.pct2 result.treatment.conversion_rate ++ " conversion rate",
    "",
    "STATISTICAL RESULTS",
    "  Absolute uplift:  " ++ fmt.s4 result.absolute_uplift ++ " (" ++
      fmt.pct1 result.relative_uplift ++ " relative)",
    "  p-value:          " ++ fmt.f4 result.p_value,
    "  95% CI:           [" ++ fmt.s4 result.ci_lower ++ ", " ++
      fmt.s4 result.ci_upper ++ "]",
    "  Significant:      " ++ (if result.is_significant then "YES" else "NO"),
    "",
    "DECISION: " ++ result.decision,
    "  " ++ result.reason,
    eqLine ]

/-- The `format_report` function: the lines joined with newlines. -/
def format_report (fmt : FloatFmt) (result : ExperimentResult) : String :=
  String.intercalate "\x0a" (format_report_lines fmt result)

theorem roundTo_six_zero : roundTo 6 0 = 0 := by norm_num [roundTo, roundHalfEven]

theorem roundTo_four_zero : roundTo 4 0 = 0 := by norm_num [roundTo, roundHalfEven]

theorem roundTo_six_one : roundTo 6 1 = 1 := by norm_num [roundTo, roundHalfEven]

theorem roundTo_four_one : roundTo 4 1 = 1 := by norm_num [roundTo, roundHalfEven]

theorem conversion_rate_mem (v : VariantStats)
    (h0 : 0 ≤ v.conversions) (h1 : v.conversions ≤ v.users) :
    0 ≤ v.conversion_rate ∧ v.conversion_rate ≤ 1 := by
  unfold VariantStats.conversion_rate
  split_ifs with h
  · norm_num
  · have hu : (0:ℚ) < (v.users : ℚ) := by exact_mod_cast (by omega : (0:ℤ) < v.users)
    refine ⟨div_nonneg (by exact_mod_cast h0) (le_of_lt hu), ?_⟩
    rw [div_le_one hu]
    exact_mod_cast h1

theorem users_nonneg (v : VariantStats)
    (h0 : 0 ≤ v.conversions) (h1 : v.conversions ≤ v.users) : (0:ℚ) ≤ (v.users : ℚ) := by
  exact_mod_cast (by omega : (0:ℤ) ≤ v.users)

theorem p_pool_mem (c t : VariantStats)
    (hc0 : 0 ≤ c.conversions) (hc1 : c.conversions ≤ c.users)
    (ht0 : 0 ≤ t.conversions) (ht1 : t.conversions ≤ t.users)
    (hn : 0 < c.users + t.users) :
    0 ≤ p_pool c t ∧ p_pool c t ≤ 1 := by
  unfold p_pool
  have hd : (0:ℚ) < ((c.users + t.users : ℤ) : ℚ) := by exact_mod_cast hn
  constructor
  · exact div_nonneg (by exact_mod_cast (by omega : (0:ℤ) ≤ c.conversions + t.conversions))
      (le_of_lt hd)
  · rw [div_le_one hd]
    exact_mod_cast (by omega : c.conversions + t.conversions ≤ c.users + t.users)

theorem se_test_sq_nonneg (c t : VariantStats)
    (hc0 : 0 ≤ c.conversions) (hc1 : c.conversions ≤ c.users)
    (ht0 : 0 ≤ t.conversions) (ht1 : t.conversions ≤ t.users)
    (hn : 0 < c.users + t.users) :
    0 ≤ se_test_sq c t := by
  obtain ⟨hp0, hp1⟩ := p_pool_mem c t hc0 hc1 ht0 ht1 hn
  unfold se_test_sq
  have h1 : (0:ℚ) ≤ 1 / (c.users : ℚ) + 1 / (t.users : ℚ) :=
    add_nonneg (div_nonneg zero_le_one (users_nonneg c hc0 hc1))
      (div_nonneg zero_le_one (users_nonneg t ht0 ht1))
  exact mul_nonneg (mul_nonneg hp0 (by linarith)) h1

theorem se_ci_sq_nonneg (c t : VariantStats)
    (hc0 : 0 ≤ c.conversions) (hc1 : c.conversions ≤ c.users)
    (ht0 : 0 ≤ t.conversions) (ht1 : t.conversions ≤ t.users) :
    0 ≤ se_ci_sq c t := by
  obtain ⟨hcr0, hcr1⟩ := conversion_rate_mem c hc0 hc1
  obtain ⟨htr0, htr1⟩ := conversion_rate_mem t ht0 ht1
  unfold se_ci_sq
  have huc := users_nonneg c hc0 hc1
  have hut := users_nonneg t ht0 ht1
  exact add_nonneg
    (div_nonneg (mul_nonneg hcr0 (by linarith)) huc)
    (div_nonneg (mul_nonneg htr0 (by linarith)) hut)

/-- Exact value returned by `analyze_experiment` when the minimum-sample
guard fires. -/
theorem analyze_guard_eq (sqrt cdf ppf : ℚ → ℚ) (fmt : FloatFmt)
    (eid : String) (c t : VariantStats) (cl : ℚ) (ms : ℤ)
    (hg : c.users < ms ∨ t.users < ms) :
    analyze_experiment sqrt cdf ppf fmt eid c t cl ms =
      some { experiment_id := eid, control := c, treatment := t,
             absolute_uplift := absolute_uplift_raw c t,
             relative_uplift := relative_uplift_raw c t,
             p_value := 1, confidence_level := cl,
             ci_lower := 0, ci_upper := 0,
             is_significant := false, decision := "INCONCLUSIVE",
             reason := insufficient_reason fmt ms c.users t.users } := by
  unfold analyze_experiment
  rw [if_pos hg]

/-- Exact value returned by `analyze_experiment` on the main path. -/
theorem analyze_pass_eq (sqrt cdf ppf : ℚ → ℚ) (fmt : FloatFmt)
    (eid : String) (c t : VariantStats) (cl : ℚ) (ms : ℤ)
    (hg : ¬(c.users < ms ∨ t.users < ms))
    (h2 : ¬(c.users + t.users = 0))
    (h3 : ¬(c.users = 0 ∨ t.users = 0))
    (h4 : ¬(se_test_sq c t < 0))
    (h5 : ¬(se_ci_sq c t < 0)) :
    analyze_experiment sqrt cdf ppf fmt eid c t cl ms =
      some { experiment_id := eid, control := c, treatment := t,
             absolute_uplift := roundTo 6 (absolute_uplift_raw c t),
             relative_uplift := roundTo 4 (relative_uplift_raw c t),
             p_value := roundTo 6 (p_value_raw sqrt cdf c t),
             confidence_level := cl,
             ci_lower := roundTo 6 (ci_lower_raw sqrt ppf c t cl),
             ci_upper := roundTo 6 (ci_upper_raw sqrt ppf c t cl),
             is_significant := significant_raw sqrt cdf c t cl,
             decision := (decision_raw sqrt cdf ppf fmt c t cl).1,
             reason := (decision_raw sqrt cdf ppf fmt c t cl).2 } := by
  unfold analyze_experiment
  rw [if_neg hg, if_neg h2, if_neg h3, if_neg h4, if_neg h5]

/-- Inversion: a `some` result on the main path pins down every field. -/
theorem analyze_pass_inv (sqrt cdf ppf : ℚ → ℚ) (fmt : FloatFmt)
    (eid : String) (c t : VariantStats) (cl : ℚ) (ms : ℤ)
    (r : ExperimentResult)
    (hg : ¬(c.users < ms ∨ t.users < ms))
    (hr : analyze_experiment sqrt cdf ppf fmt eid c t cl ms = some r) :
    ¬(se_test_sq c t < 0) ∧ ¬(se_ci_sq c t < 0) ∧
      r = { experiment_id := eid, control := c, treatment := t,
            absolute_uplift := roundTo 6 (absolute_uplift_raw c t),
            relative_uplift := roundTo 4 (relative_uplift_raw c t),
            p_value := roundTo 6 (p_value_raw sqrt cdf c t),
            confidence_level := cl,
            ci_lower := roundTo 6 (ci_lower_raw sqrt ppf c t cl),
            ci_upper := roundTo 6 (ci_upper_raw sqrt ppf c t cl),
            is_significant := significant_raw sqrt cdf c t cl,
            decision := (decision_raw sqrt cdf ppf fmt c t cl).1,
            reason := (decision_raw sqrt cdf ppf fmt c t cl).2 } := by
  unfold analyze_experiment at hr
  rw [if_neg hg] at hr
  split_ifs at hr with h2 h3 h4 h5
  exact ⟨h4, h5, (Option.some.inj hr).symm⟩

/-- Identity stand-in for `math.sqrt` in concrete instantiations: it maps
`0` to `0` and keeps nonnegative inputs nonnegative, which is all the
theorems assume about the square root. -/
def sqrtId : ℚ → ℚ := fun x => x

/-- Constant stand-in for the normal CDF with the true value at `0`. -/
def cdfHalf : ℚ → ℚ := fun _ => 1/2

/-- Constant stand-in for the normal CDF, makes every two-tailed p-value `0`. -/
def cdfOne : ℚ → ℚ := fun _ => 1

/-- Table stand-in for the normal inverse CDF with the familiar critical
values at the default quantiles `0.975` and `0.995`. -/
def ppfTable : ℚ → ℚ := fun q =>
  if q = 995/1000 then 2575829/1000000
  else if q = 975/1000 then 1959964/1000000
  else 0

/-- Constant renderers standing in for Python float formatting. -/
def fmt0 : FloatFmt :=
  { f4 := fun _ => "f4", s4 := fun _ => "s4", pct1 := fun _ => "pct1",
    pct2 := fun _ => "pct2", plainQ := fun _ => "q", plainZ := fun _ => "z" }

/-- C2: when either variant has fewer users than `min_sample_size`,
`analyze_experiment` returns `p_value = 1.0`, `ci_lower = ci_upper = 0.0`,
`is_significant = False`, decision `"INCONCLUSIVE"` regardless of the
conversion counts, and the `absolute_uplift` field carries the unrounded
point-estimate difference of the conversion rates. -/
theorem minSampleGuard_result (sqrt cdf ppf : ℚ → ℚ) (fmt : FloatFmt)
    (eid : String) (c t : VariantStats) (cl : ℚ) (ms : ℤ)
    (hg : c.users < ms ∨ t.users < ms) :
    analyze_experiment sqrt cdf ppf fmt eid c t cl ms =
      some { experiment_id := eid, control := c, treatment := t,
             absolute_uplift := absolute_uplift_raw c t,
             relative_uplift := relative_uplift_raw c t,
             p_value := 1, confidence_level := cl,
             ci_lower := 0, ci_upper := 0,
             is_significant := false, decision := "INCONCLUSIVE",
             reason := insufficient_reason fmt ms c.users t.users } ∧
      absolute_uplift_raw c t = t.conversion_rate - c.conversion_rate :=
  ⟨analyze_guard_eq sqrt cdf ppf fmt eid c t cl ms hg, rfl⟩

/-- Concrete instance of the guard (the spec scenario 20/2 vs 20/5). -/
theorem minSampleGuard_result_witness :
    ((VariantStats.mk "control" 20 2).users < 100 ∨
      (VariantStats.mk "treatment" 20 5).users < 100) ∧
    (analyze_experiment sqrtId cdfHalf ppfTable fmt0 "exp"
        (VariantStats.mk "control" 20 2) (VariantStats.mk "treatment" 20 5) (95/100) 100 =
      some { experiment_id := "exp",
             control := VariantStats.mk "control" 20 2,
             treatment := VariantStats.mk "treatment" 20 5,
             absolute_uplift :=
               absolute_uplift_raw (VariantStats.mk "control" 20 2) (VariantStats.mk "treatment" 20 5),
             relative_uplift :=
               relative_uplift_raw (VariantStats.mk "control" 20 2) (VariantStats.mk "treatment" 20 5),
             p_value := 1, confidence_level := 95/100,
             ci_lower := 0, ci_upper := 0,
             is_significant := false, decision := "INCONCLUSIVE",
             reason := insufficient_reason fmt0 100 20 5 } ∧
      absolute_uplift_raw (VariantStats.mk "control" 20 2) (VariantStats.mk "treatment" 20 5) =
        (VariantStats.mk "treatment" 20 5).conversion_rate -
          (VariantStats.mk "control" 20 2).conversion_rate) :=
  ⟨Or.inl (by norm_num),
    minSampleGuard_result sqrtId cdfHalf ppfTable fmt0 "exp" _ _ (95/100) 100
      (Or.inl (by norm_num))⟩

/-- C9 counterexample: the `VariantStats` dataclass rejects nothing at
construction: `conversions > users` and negative counts are accepted, and
the derived rate is computed from them unchanged. -/
theorem variantStats_accepts_invalid :
    (VariantStats.mk "bad" 5 10).conversions > (VariantStats.mk "bad" 5 10).users ∧
    (VariantStats.mk "bad" 5 10).conversion_rate = 2 ∧
    (VariantStats.mk "neg" (-5) (-7)).conversion_rate = 7/5 := by
  refine ⟨by norm_num, ?_, ?_⟩ <;> norm_num [VariantStats.conversion_rate]

/-- C9 amended: construction of a `VariantStats` is not validated; a
variant with `conversions > users` flows into the engine, where the
negative unpooled variance makes `math.sqrt` raise (modelled as `none`)
deep inside `analyze_experiment` rather than at construction. -/
theorem variantStats_no_validation :
    (VariantStats.mk "bad" 200 300).conversion_rate = 3/2 ∧
    analyze_experiment sqrtId cdfHalf ppfTable fmt0 "exp"
      (VariantStats.mk "bad" 200 300) (VariantStats.mk "t" 200 0) (95/100) 100 = none := by
  constructor
  · norm_num [VariantStats.conversion_rate]
  · norm_num [analyze_experiment, se_test_sq, se_ci_sq, p_pool,
      VariantStats.conversion_rate]

/-- C10: the SHIP reason of `_make_decision` and the statistical-results
section of `format_report` label the interval with the literal text
`95% CI` (the report line is `  95% CI:           [...]`, index 11 of the
report lines); neither string depends on the `confidence_level` in use:
`ship_reason` does not take it, and the whole report is unchanged when
only `confidence_level` changes. -/
theorem ciLabel_literal (fmt : FloatFmt) (p rel cil ciu : ℚ)
    (r : ExperimentResult) (cl : ℚ) :
    (ship_reason fmt p rel cil ciu =
      ("Statistically significant positive effect (p=" ++ fmt.f4 p ++
          "). Treatment increases conversion by " ++ fmt.pct1 rel ++ " (") ++
        ("95% CI" ++ (": [" ++ fmt.s4 cil ++ ", " ++ fmt.s4 ciu ++ "])."))) ∧
    ((format_report_lines fmt r).get? 11 =
      some ("  " ++ ("95% CI" ++ (":           [" ++ fmt.s4 r.ci_lower ++ ", " ++
        fmt.s4 r.ci_upper ++ "]")))) ∧
    format_report fmt { r with confidence_level := cl } = format_report fmt r := by
  refine ⟨?_, ?_, ?_⟩
  · simp only [ship_reason, String.append_assoc]
    rfl
  · simp only [format_report_lines, List.get?, String.append_assoc]
    rfl
  · rfl

/-- C1: past the minimum-sample guard the decision follows the ordered
policy of `_make_decision` on the unrounded statistics, first match wins:
not significant gives DO NOT SHIP; else positive uplift with positive CI
lower bound gives SHIP; else negative uplift with negative CI upper bound
gives DO NOT SHIP with the negative-effect reason; else DO NOT SHIP with
the direction-uncertain reason.  In particular the decision is SHIP iff
`p_value < 1 - confidence_level`, `absolute_uplift > 0` and `ci_lower > 0`
all hold on the unrounded values. -/
theorem decisionPolicy_ship_iff (sqrt cdf ppf : ℚ → ℚ) (fmt : FloatFmt)
    (eid : String) (c t : VariantStats) (cl : ℚ) (ms : ℤ) (r : ExperimentResult)
    (hg : ¬(c.users < ms ∨ t.users < ms))
    (hr : analyze_experiment sqrt cdf ppf fmt eid c t cl ms = some r) :
    r.is_significant = significant_raw sqrt cdf c t cl
    ∧ (r.is_significant = false → r.decision = "DO NOT SHIP")
    ∧ (r.is_significant = true ∧ absolute_uplift_raw c t > 0 ∧
          ci_lower_raw sqrt ppf c t cl > 0 →
        r.decision = "SHIP" ∧
          r.reason = ship_reason fmt (p_value_raw sqrt cdf c t)
            (relative_uplift_raw c t) (ci_lower_raw sqrt ppf c t cl)
            (ci_upper_raw sqrt ppf c t cl))
    ∧ (r.is_significant = true ∧
          ¬(absolute_uplift_raw c t > 0 ∧ ci_lower_raw sqrt ppf c t cl > 0) ∧
          absolute_uplift_raw c t < 0 ∧ ci_upper_raw sqrt ppf c t cl < 0 →
        r.decision = "DO NOT SHIP" ∧
          r.reason = negative_effect_reason fmt (p_value_raw sqrt cdf c t)
            (relative_uplift_raw c t))
    ∧ (r.is_significant = true ∧
          ¬(absolute_uplift_raw c t > 0 ∧ ci_lower_raw sqrt ppf c t cl > 0) ∧
          ¬(absolute_uplift_raw c t < 0 ∧ ci_upper_raw sqrt ppf c t cl < 0) →
        r.decision = "DO NOT SHIP" ∧
          r.reason = direction_uncertain_reason fmt (p_value_raw sqrt cdf c t)
            (ci_lower_raw sqrt ppf c t cl) (ci_upper_raw sqrt ppf c t cl))
    ∧ (r.decision = "SHIP" ↔
        (p_value_raw sqrt cdf c t < 1 - cl ∧ absolute_uplift_raw c t > 0 ∧
          ci_lower_raw sqrt ppf c t cl > 0)) := by
  obtain ⟨h4, h5, hre⟩ := analyze_pass_inv sqrt cdf ppf fmt eid c t cl ms r hg hr
  subst hre
  simp only [decision_raw, make_decision, significant_raw]
  by_cases hs : p_value_raw sqrt cdf c t < 1 - cl
  · by_cases hb2 : absolute_uplift_raw c t > 0 ∧ ci_lower_raw sqrt ppf c t cl > 0
    · simp [hs, hb2]
    · by_cases hb3 : absolute_uplift_raw c t < 0 ∧ ci_upper_raw sqrt ppf c t cl < 0
      · simp [hs, hb2, hb3]
      · simp [hs, hb2, hb3]
  · simp [hs]

/-- Control variant 1000 users / 100 conversions, for concrete runs. -/
def cW : VariantStats := { name := "control", users := 1000, conversions := 100 }

/-- Treatment variant 1000 users / 200 conversions, for concrete runs. -/
def tW : VariantStats := { name := "treatment", users := 1000, conversions := 200 }

/-- Result of the concrete run backing the decision-policy claim. -/
def rC1 : ExperimentResult :=
  { experiment_id := "exp", control := cW, treatment := tW,
    absolute_uplift := roundTo 6 (absolute_uplift_raw cW tW),
    relative_uplift := roundTo 4 (relative_uplift_raw cW tW),
    p_value := roundTo 6 (p_value_raw sqrtId cdfOne cW tW),
    confidence_level := 95/100,
    ci_lower := roundTo 6 (ci_lower_raw sqrtId ppfTable cW tW (95/100)),
    ci_upper := roundTo 6 (ci_upper_raw sqrtId ppfTable cW tW (95/100)),
    is_significant := significant_raw sqrtId cdfOne cW tW (95/100),
    decision := (decision_raw sqrtId cdfOne ppfTable fmt0 cW tW (95/100)).1,
    reason := (decision_raw sqrtId cdfOne ppfTable fmt0 cW tW (95/100)).2 }

/-- Concrete instance of the decision policy at 1000/100 vs 1000/200. -/
theorem decisionPolicy_ship_iff_witness :
    rC1.is_significant = significant_raw sqrtId cdfOne cW tW (95/100)
    ∧ (rC1.is_significant = false → rC1.decision = "DO NOT SHIP")
    ∧ (rC1.is_significant = true ∧ absolute_uplift_raw cW tW > 0 ∧
          ci_lower_raw sqrtId ppfTable cW tW (95/100) > 0 →
        rC1.decision = "SHIP" ∧
          rC1.reason = ship_reason fmt0 (p_value_raw sqrtId cdfOne cW tW)
            (relative_uplift_raw cW tW) (ci_lower_raw sqrtId ppfTable cW tW (95/100))
            (ci_upper_raw sqrtId ppfTable cW tW (95/100)))
    ∧ (rC1.is_significant = true ∧
          ¬(absolute_uplift_raw cW tW > 0 ∧ ci_lower_raw sqrtId ppfTable cW tW (95/100) > 0) ∧
          absolute_uplift_raw cW tW < 0 ∧ ci_upper_raw sqrtId ppfTable cW tW (95/100) < 0 →
        rC1.decision = "DO NOT SHIP" ∧
          rC1.reason = negative_effect_reason fmt0 (p_value_raw sqrtId cdfOne cW tW)
            (relative_uplift_raw cW tW))
    ∧ (rC1.is_significant = true ∧
          ¬(absolute_uplift_raw cW tW > 0 ∧ ci_lower_raw sqrtId ppfTable cW tW (95/100) > 0) ∧
          ¬(absolute_uplift_raw cW tW < 0 ∧ ci_upper_raw sqrtId ppfTable cW tW (95/100) < 0) →
        rC1.decision = "DO NOT SHIP" ∧
          rC1.reason = direction_uncertain_reason fmt0 (p_value_raw sqrtId cdfOne cW tW)
            (ci_lower_raw sqrtId ppfTable cW tW (95/100))
            (ci_upper_raw sqrtId ppfTable cW tW (95/100)))
    ∧ (rC1.decision = "SHIP" ↔
        (p_value_raw sqrtId cdfOne cW tW < 1 - 95/100 ∧ absolute_uplift_raw cW tW > 0 ∧
          ci_lower_raw sqrtId ppfTable cW tW (95/100) > 0)) :=
  decisionPolicy_ship_iff sqrtId cdfOne ppfTable fmt0 "exp" cW tW (95/100) 100 rC1
    (by norm_num [cW, tW])
    (analyze_pass_eq sqrtId cdfOne ppfTable fmt0 "exp" cW tW (95/100) 100
      (by norm_num [cW, tW]) (by norm_num [cW, tW]) (by norm_num [cW, tW])
      (by norm_num [se_test_sq, p_pool, cW, tW])
      (by norm_num [se_ci_sq, VariantStats.conversion_rate, cW, tW]))

/-- C3 counterexample: below the sample threshold (10 users each) the
returned interval is `[0, 0]` while `absolute_uplift` is `0.5`, so
`ci_lower ≤ absolute_uplift ≤ ci_upper` fails. -/
theorem ciContains_counterexample :
    analyze_experiment sqrtId cdfHalf ppfTable fmt0 "exp"
        (VariantStats.mk "control" 10 0) (VariantStats.mk "treatment" 10 5) (95/100) 100 =
      some { experiment_id := "exp",
             control := VariantStats.mk "control" 10 0,
             treatment := VariantStats.mk "treatment" 10 5,
             absolute_uplift := 1/2, relative_uplift := 0,
             p_value := 1, confidence_level := 95/100,
             ci_lower := 0, ci_upper := 0,
             is_significant := false, decision := "INCONCLUSIVE",
             reason := insufficient_reason fmt0 100 10 10 } ∧
    ¬((0:ℚ) ≤ 1/2 ∧ (1/2:ℚ) ≤ 0) := by
  constructor
  · rw [analyze_guard_eq sqrtId cdfHalf ppfTable fmt0 "exp" _ _ (95/100) 100
      (Or.inl (by norm_num))]
    norm_num [absolute_uplift_raw, relative_uplift_raw, VariantStats.conversion_rate]
  · norm_num

/-- C3 amended: `ci_lower ≤ absolute_uplift ≤ ci_upper` holds for every
result produced past the minimum-sample guard; when the guard fires the
returned interval is exactly `[0, 0]` while `absolute_uplift` keeps the
raw point estimate, so the invariant can fail below the threshold. -/
theorem ciContains_amended (sqrt cdf ppf : ℚ → ℚ) (fmt : FloatFmt)
    (eid : String) (c t : VariantStats) (cl : ℚ) (ms : ℤ) (r : ExperimentResult)
    (hsq : ∀ x : ℚ, 0 ≤ x → 0 ≤ sqrt x)
    (hz : 0 ≤ z_crit ppf cl)
    (hr : analyze_experiment sqrt cdf ppf fmt eid c t cl ms = some r) :
    (¬(c.users < ms ∨ t.users < ms) →
      r.ci_lower ≤ r.absolute_uplift ∧ r.absolute_uplift ≤ r.ci_upper) ∧
    ((c.users < ms ∨ t.users < ms) →
      r.ci_lower = 0 ∧ r.ci_upper = 0 ∧ r.absolute_uplift = absolute_uplift_raw c t) := by
  constructor
  · intro hg
    obtain ⟨h4, h5, hre⟩ := analyze_pass_inv sqrt cdf ppf fmt eid c t cl ms r hg hr
    subst hre
    dsimp only
    have hse : 0 ≤ sqrt (se_ci_sq c t) := hsq _ (not_lt.mp h5)
    have hzs : 0 ≤ z_crit ppf cl * sqrt (se_ci_sq c t) := mul_nonneg hz hse
    constructor
    · exact roundTo_mono 6 (by unfold ci_lower_raw; linarith)
    · exact roundTo_mono 6 (by unfold ci_upper_raw; linarith)
  · intro hg
    rw [analyze_guard_eq sqrt cdf ppf fmt eid c t cl ms hg] at hr
    rw [Option.some.injEq] at hr
    subst hr
    exact ⟨rfl, rfl, rfl⟩

/-- Concrete instance of the amended containment at 1000/100 vs 1000/200. -/
theorem ciContains_amended_witness :
    (¬(cW.users < (100:ℤ) ∨ tW.users < 100) →
      rC1.ci_lower ≤ rC1.absolute_uplift ∧ rC1.absolute_uplift ≤ rC1.ci_upper) ∧
    ((cW.users < (100:ℤ) ∨ tW.users < 100) →
      rC1.ci_lower = 0 ∧ rC1.ci_upper = 0 ∧
        rC1.absolute_uplift = absolute_uplift_raw cW tW) :=
  ciContains_amended sqrtId cdfOne ppfTable fmt0 "exp" cW tW (95/100) 100 rC1
    (fun x hx => hx) (by norm_num [z_crit, ppfTable])
    (analyze_pass_eq sqrtId cdfOne ppfTable fmt0 "exp" cW tW (95/100) 100
      (by norm_num [cW, tW]) (by norm_num [cW, tW]) (by norm_num [cW, tW])
      (by norm_num [se_test_sq, p_pool, cW, tW])
      (by norm_num [se_ci_sq, VariantStats.conversion_rate, cW, tW]))

/-- C5: past the sample threshold the returned, 6-decimal-rounded
statistics satisfy `ci_lower ≤ absolute_uplift ≤ ci_upper` (rounding is
monotone, so the unrounded containment survives it). -/
theorem ciContains_rounded (sqrt cdf ppf : ℚ → ℚ) (fmt : FloatFmt)
    (eid : String) (c t : VariantStats) (cl : ℚ) (ms : ℤ) (r : ExperimentResult)
    (hsq : ∀ x : ℚ, 0 ≤ x → 0 ≤ sqrt x)
    (hz : 0 ≤ z_crit ppf cl)
    (hg : ¬(c.users < ms ∨ t.users < ms))
    (hr : analyze_experiment sqrt cdf ppf fmt eid c t cl ms = some r) :
    r.ci_lower = roundTo 6 (ci_lower_raw sqrt ppf c t cl) ∧
    r.absolute_uplift = roundTo 6 (absolute_uplift_raw c t) ∧
    r.ci_upper = roundTo 6 (ci_upper_raw sqrt ppf c t cl) ∧
    r.ci_lower ≤ r.absolute_uplift ∧ r.absolute_uplift ≤ r.ci_upper := by
  obtain ⟨h4, h5, hre⟩ := analyze_pass_inv sqrt cdf ppf fmt eid c t cl ms r hg hr
  subst hre
  dsimp only
  have hse : 0 ≤ sqrt (se_ci_sq c t) := hsq _ (not_lt.mp h5)
  have hzs : 0 ≤ z_crit ppf cl * sqrt (se_ci_sq c t) := mul_nonneg hz hse
  refine ⟨rfl, rfl, rfl, ?_, ?_⟩
  · exact roundTo_mono 6 (by unfold ci_lower_raw; linarith)
  · exact roundTo_mono 6 (by unfold ci_upper_raw; linarith)

/-- Concrete instance of the rounded containment at 1000/100 vs 1000/200. -/
theorem ciContains_rounded_witness :
    rC1.ci_lower = roundTo 6 (ci_lower_raw sqrtId ppfTable cW tW (95/100)) ∧
    rC1.absolute_uplift = roundTo 6 (absolute_uplift_raw cW tW) ∧
    rC1.ci_upper = roundTo 6 (ci_upper_raw sqrtId ppfTable cW tW (95/100)) ∧
    rC1.ci_lower ≤ rC1.absolute_uplift ∧ rC1.absolute_uplift ≤ rC1.ci_upper :=
  ciContains_rounded sqrtId cdfOne ppfTable fmt0 "exp" cW tW (95/100) 100 rC1
    (fun x hx => hx) (by norm_num [z_crit, ppfTable]) (by norm_num [cW, tW])
    (analyze_pass_eq sqrtId cdfOne ppfTable fmt0 "exp" cW tW (95/100) 100
      (by norm_num [cW, tW]) (by norm_num [cW, tW]) (by norm_num [cW, tW])
      (by norm_num [se_test_sq, p_pool, cW, tW])
      (by norm_num [se_ci_sq, VariantStats.conversion_rate, cW, tW]))

/-- Control variant with 0% conversion, for the boundary cases. -/
def cZero : VariantStats := { name := "control", users := 1000, conversions := 0 }

/-- Treatment variant with 0% conversion, for the boundary cases. -/
def tZero : VariantStats := { name := "treatment", users := 1000, conversions := 0 }

/-- Control variant with 100% conversion, for the boundary cases. -/
def cFull : VariantStats := { name := "control", users := 1000, conversions := 1000 }

/-- Treatment variant with 100% conversion, for the boundary cases. -/
def tFull : VariantStats := { name := "treatment", users := 1000, conversions := 1000 }

/-- C4: with the default `confidence_level = 0.95` and
`min_sample_size = 100`, `analyze_experiment` never reaches a raise point
for any counts with `0 ≤ conversions ≤ users` (including `users = 0`),
and the boundary runs 1000/0 vs 1000/0 and 1000/1000 vs 1000/1000 return
`absolute_uplift = 0.0`. -/
theorem analyze_total_and_boundary (sqrt cdf ppf : ℚ → ℚ) (fmt : FloatFmt)
    (eid : String) (c t : VariantStats)
    (hc0 : 0 ≤ c.conversions) (hc1 : c.conversions ≤ c.users)
    (ht0 : 0 ≤ t.conversions) (ht1 : t.conversions ≤ t.users) :
    (analyze_experiment sqrt cdf ppf fmt eid c t (95/100) 100).isSome = true ∧
    Option.map (fun r => r.absolute_uplift)
      (analyze_experiment sqrt cdf ppf fmt eid cZero tZero (95/100) 100) = some 0 ∧
    Option.map (fun r => r.absolute_uplift)
      (analyze_experiment sqrt cdf ppf fmt eid cFull tFull (95/100) 100) = some 0 := by
  refine ⟨?_, ?_, ?_⟩
  · by_cases hg : c.users < 100 ∨ t.users < 100
    · rw [analyze_guard_eq sqrt cdf ppf fmt eid c t (95/100) 100 hg]
      rfl
    · have hgg := hg
      push_neg at hgg
      obtain ⟨hgc, hgt⟩ := hgg
      rw [analyze_pass_eq sqrt cdf ppf fmt eid c t (95/100) 100 hg
        (by omega) (by push_neg; omega)
        (not_lt.mpr (se_test_sq_nonneg c t hc0 hc1 ht0 ht1 (by omega)))
        (not_lt.mpr (se_ci_sq_nonneg c t hc0 hc1 ht0 ht1))]
      rfl
  · rw [analyze_pass_eq sqrt cdf ppf fmt eid cZero tZero (95/100) 100
      (by norm_num [cZero, tZero]) (by norm_num [cZero, tZero])
      (by norm_num [cZero, tZero])
      (by norm_num [se_test_sq, p_pool, cZero, tZero])
      (by norm_num [se_ci_sq, VariantStats.conversion_rate, cZero, tZero])]
    simp only [Option.map_some']
    norm_num [absolute_uplift_raw, VariantStats.conversion_rate, cZero, tZero,
      roundTo, roundHalfEven]
  · rw [analyze_pass_eq sqrt cdf ppf fmt eid cFull tFull (95/100) 100
      (by norm_num [cFull, tFull]) (by norm_num [cFull, tFull])
      (by norm_num [cFull, tFull])
      (by norm_num [se_test_sq, p_pool, cFull, tFull])
      (by norm_num [se_ci_sq, VariantStats.conversion_rate, cFull, tFull])]
    simp only [Option.map_some']
    norm_num [absolute_uplift_raw, VariantStats.conversion_rate, cFull, tFull,
      roundTo, roundHalfEven]

/-- Concrete instance of totality (valid counts 1000/100 vs 1000/200) and
the two boundary runs. -/
theorem analyze_total_and_boundary_witness :
    (analyze_experiment sqrtId cdfHalf ppfTable fmt0 "exp" cW tW (95/100) 100).isSome = true ∧
    Option.map (fun r => r.absolute_uplift)
      (analyze_experiment sqrtId cdfHalf ppfTable fmt0 "exp" cZero tZero (95/100) 100) = some 0 ∧
    Option.map (fun r => r.absolute_uplift)
      (analyze_experiment sqrtId cdfHalf ppfTable fmt0 "exp" cFull tFull (95/100) 100) = some 0 :=
  analyze_total_and_boundary sqrtId cdfHalf ppfTable fmt0 "exp" cW tW
    (by norm_num [cW]) (by norm_num [cW]) (by norm_num [tW]) (by norm_num [tW])

/-- C6: when both variants pass the guard and the pooled test standard
error is zero, `analyze_experiment` sets `z_stat = 0` and `p_value = 1.0`
and returns a normal result with `is_significant = False` instead of
raising. -/
theorem degenerate_pValue_one (sqrt cdf ppf : ℚ → ℚ) (fmt : FloatFmt)
    (eid : String) (c t : VariantStats) (cl : ℚ) (ms : ℤ)
    (hms : 0 < ms)
    (hg : ¬(c.users < ms ∨ t.users < ms))
    (hc0 : 0 ≤ c.conversions) (hc1 : c.conversions ≤ c.users)
    (ht0 : 0 ≤ t.conversions) (ht1 : t.conversions ≤ t.users)
    (hse : sqrt (se_test_sq c t) = 0)
    (hcl : 0 ≤ cl) :
    z_stat_raw sqrt c t = 0 ∧ p_value_raw sqrt cdf c t = 1 ∧
    analyze_experiment sqrt cdf ppf fmt eid c t cl ms =
      some { experiment_id := eid, control := c, treatment := t,
             absolute_uplift := roundTo 6 (absolute_uplift_raw c t),
             relative_uplift := roundTo 4 (relative_uplift_raw c t),
             p_value := 1, confidence_level := cl,
             ci_lower := roundTo 6 (ci_lower_raw sqrt ppf c t cl),
             ci_upper := roundTo 6 (ci_upper_raw sqrt ppf c t cl),
             is_significant := false, decision := "DO NOT SHIP",
             reason := not_significant_reason fmt 1 (1 - cl)
               (relative_uplift_raw c t) } := by
  have hz : z_stat_raw sqrt c t = 0 := by unfold z_stat_raw; rw [if_pos hse]
  have hp : p_value_raw sqrt cdf c t = 1 := by unfold p_value_raw; rw [if_pos hse]
  have hsig : significant_raw sqrt cdf c t cl = false := by
    unfold significant_raw
    rw [hp]
    simp only [decide_eq_false_iff_not, not_lt]
    linarith
  have hgg := hg
  push_neg at hgg
  obtain ⟨hgc, hgt⟩ := hgg
  refine ⟨hz, hp, ?_⟩
  rw [analyze_pass_eq sqrt cdf ppf fmt eid c t cl ms hg (by omega) (by push_neg; omega)
    (not_lt.mpr (se_test_sq_nonneg c t hc0 hc1 ht0 ht1 (by omega)))
    (not_lt.mpr (se_ci_sq_nonneg c t hc0 hc1 ht0 ht1))]
  simp [Option.some.injEq, ExperimentResult.mk.injEq, decision_raw, make_decision,
    hsig, hp, roundTo_six_one]

/-- Concrete degenerate instance: both variants fully convert, so the
pooled proportion is 1 and the test standard error vanishes. -/
theorem degenerate_pValue_one_witness :
    z_stat_raw sqrtId cFull tFull = 0 ∧ p_value_raw sqrtId cdfHalf cFull tFull = 1 ∧
    analyze_experiment sqrtId cdfHalf ppfTable fmt0 "exp" cFull tFull (95/100) 100 =
      some { experiment_id := "exp", control := cFull, treatment := tFull,
             absolute_uplift := roundTo 6 (absolute_uplift_raw cFull tFull),
             relative_uplift := roundTo 4 (relative_uplift_raw cFull tFull),
             p_value := 1, confidence_level := 95/100,
             ci_lower := roundTo 6 (ci_lower_raw sqrtId ppfTable cFull tFull (95/100)),
             ci_upper := roundTo 6 (ci_upper_raw sqrtId ppfTable cFull tFull (95/100)),
             is_significant := false, decision := "DO NOT SHIP",
             reason := not_significant_reason fmt0 1 (1 - 95/100)
               (relative_uplift_raw cFull tFull) } :=
  degenerate_pValue_one sqrtId cdfHalf ppfTable fmt0 "exp" cFull tFull (95/100) 100
    (by norm_num) (by norm_num [cFull, tFull])
    (by norm_num [cFull]) (by norm_num [cFull]) (by norm_num [tFull]) (by norm_num [tFull])
    (by norm_num [sqrtId, se_test_sq, p_pool, cFull, tFull]) (by norm_num)

/-- C8: equal conversion rates above the threshold give
`absolute_uplift = 0.0` and decision DO NOT SHIP (never SHIP): the
z-statistic is `0`, the two-tailed p-value is `1`, and the
not-significant branch fires. -/
theorem equalRates_noShip (sqrt cdf ppf : ℚ → ℚ) (fmt : FloatFmt)
    (eid : String) (c t : VariantStats) (cl : ℚ) (ms : ℤ)
    (heq : c.conversion_rate = t.conversion_rate)
    (hms : 0 < ms)
    (hg : ¬(c.users < ms ∨ t.users < ms))
    (hc0 : 0 ≤ c.conversions) (hc1 : c.conversions ≤ c.users)
    (ht0 : 0 ≤ t.conversions) (ht1 : t.conversions ≤ t.users)
    (hcdf : cdf 0 = 1/2) (hcl : 0 ≤ cl) :
    analyze_experiment sqrt cdf ppf fmt eid c t cl ms =
      some { experiment_id := eid, control := c, treatment := t,
             absolute_uplift := 0, relative_uplift := 0,
             p_value := 1, confidence_level := cl,
             ci_lower := roundTo 6 (ci_lower_raw sqrt ppf c t cl),
             ci_upper := roundTo 6 (ci_upper_raw sqrt ppf c t cl),
             is_significant := false, decision := "DO NOT SHIP",
             reason := not_significant_reason fmt 1 (1 - cl) 0 } := by
  have hup : absolute_uplift_raw c t = 0 := by
    unfold absolute_uplift_raw
    rw [heq]
    ring
  have hrel : relative_uplift_raw c t = 0 := by
    unfold relative_uplift_raw
    rw [hup]
    split_ifs with h
    · exact zero_div _
    · rfl
  have hp : p_value_raw sqrt cdf c t = 1 := by
    unfold p_value_raw
    split_ifs with h
    · rfl
    · have hzz : z_stat_raw sqrt c t = 0 := by
        unfold z_stat_raw
        rw [if_neg h, hup, zero_div]
      rw [hzz, abs_zero, hcdf]
      ring
  have hsig : significant_raw sqrt cdf c t cl = false := by
    unfold significant_raw
    rw [hp]
    simp only [decide_eq_false_iff_not, not_lt]
    linarith
  have hgg := hg
  push_neg at hgg
  obtain ⟨hgc, hgt⟩ := hgg
  rw [analyze_pass_eq sqrt cdf ppf fmt eid c t cl ms hg (by omega) (by push_neg; omega)
    (not_lt.mpr (se_test_sq_nonneg c t hc0 hc1 ht0 ht1 (by omega)))
    (not_lt.mpr (se_ci_sq_nonneg c t hc0 hc1 ht0 ht1))]
  simp [Option.some.injEq, ExperimentResult.mk.injEq, decision_raw, make_decision,
    hsig, hp, hup, hrel, roundTo_six_one, roundTo_six_zero, roundTo_four_zero]

/-- Treatment variant with the same rate as `cW`, for the zero-effect run. -/
def tEq : VariantStats := { name := "treatment", users := 1000, conversions := 100 }

/-- Concrete zero-effect instance: both variants 1000 users / 100
conversions. -/
theorem equalRates_noShip_witness :
    analyze_experiment sqrtId cdfHalf ppfTable fmt0 "exp" cW tEq (95/100) 100 =
      some { experiment_id := "exp", control := cW, treatment := tEq,
             absolute_uplift := 0, relative_uplift := 0,
             p_value := 1, confidence_level := 95/100,
             ci_lower := roundTo 6 (ci_lower_raw sqrtId ppfTable cW tEq (95/100)),
             ci_upper := roundTo 6 (ci_upper_raw sqrtId ppfTable cW tEq (95/100)),
             is_significant := false, decision := "DO NOT SHIP",
             reason := not_significant_reason fmt0 1 (1 - 95/100) 0 } :=
  equalRates_noShip sqrtId cdfHalf ppfTable fmt0 "exp" cW tEq (95/100) 100
    (by norm_num [VariantStats.conversion_rate, cW, tEq]) (by norm_num)
    (by norm_num [cW, tEq])
    (by norm_num [cW]) (by norm_num [cW]) (by norm_num [tEq]) (by norm_num [tEq])
    rfl (by norm_num)

/-- C7 counterexample: for 1000/0 vs 1000/0 (which passes the guard) the
unpooled CI standard error is zero, so the returned CI width is `0` at
confidence level 0.99 as well as at 0.95 — not strictly greater. -/
theorem ciWidth_counterexample :
    analyze_experiment sqrtId cdfHalf ppfTable fmt0 "exp" cZero tZero (99/100) 100 =
      some { experiment_id := "exp", control := cZero, treatment := tZero,
             absolute_uplift := 0, relative_uplift := 0, p_value := 1,
             confidence_level := 99/100, ci_lower := 0, ci_upper := 0,
             is_significant := false, decision := "DO NOT SHIP",
             reason := not_significant_reason fmt0 1 (1 - 99/100) 0 } ∧
    analyze_experiment sqrtId cdfHalf ppfTable fmt0 "exp" cZero tZero (95/100) 100 =
      some { experiment_id := "exp", control := cZero, treatment := tZero,
             absolute_uplift := 0, relative_uplift := 0, p_value := 1,
             confidence_level := 95/100, ci_lower := 0, ci_upper := 0,
             is_significant := false, decision := "DO NOT SHIP",
             reason := not_significant_reason fmt0 1 (1 - 95/100) 0 } ∧
    ¬((0:ℚ) - 0 > (0:ℚ) - 0) := by
  refine ⟨?_, ?_, by norm_num⟩ <;>
  · rw [analyze_pass_eq sqrtId cdfHalf ppfTable fmt0 "exp" cZero tZero _ 100
      (by norm_num [cZero, tZero]) (by norm_num [cZero, tZero])
      (by norm_num [cZero, tZero])
      (by norm_num [se_test_sq, p_pool, cZero, tZero])
      (by norm_num [se_ci_sq, VariantStats.conversion_rate, cZero, tZero])]
    norm_num [ExperimentResult.mk.injEq, absolute_uplift_raw, relative_uplift_raw,
      VariantStats.conversion_rate, p_value_raw, se_test_sq, p_pool, sqrtId,
      ci_lower_raw, ci_upper_raw, se_ci_sq, z_crit, ppfTable, significant_raw,
      decision_raw, make_decision, not_significant_reason, fmt0,
      roundTo, roundHalfEven, cZero, tZero]

/-- C7 amended: for fixed counts past the guard, if the unpooled CI
standard error is nonzero the unrounded CI width at confidence level 0.99
is strictly greater than at 0.95; after rounding to 6 decimals the
returned widths satisfy the inequality non-strictly (rounding, or a zero
standard error, can collapse it to equality). -/
theorem ciWidth_monotone_amended (sqrt cdf ppf : ℚ → ℚ) (fmt : FloatFmt)
    (eid : String) (c t : VariantStats) (ms : ℤ) (r99 r95 : ExperimentResult)
    (hz : z_crit ppf (95/100) < z_crit ppf (99/100))
    (hse : 0 < sqrt (se_ci_sq c t))
    (hg : ¬(c.users < ms ∨ t.users < ms))
    (h99 : analyze_experiment sqrt cdf ppf fmt eid c t (99/100) ms = some r99)
    (h95 : analyze_experiment sqrt cdf ppf fmt eid c t (95/100) ms = some r95) :
    ci_upper_raw sqrt ppf c t (99/100) - ci_lower_raw sqrt ppf c t (99/100) >
      ci_upper_raw sqrt ppf c t (95/100) - ci_lower_raw sqrt ppf c t (95/100) ∧
    r99.ci_upper - r99.ci_lower ≥ r95.ci_upper - r95.ci_lower := by
  obtain ⟨h4a, h5a, h99e⟩ := analyze_pass_inv sqrt cdf ppf fmt eid c t (99/100) ms r99 hg h99
  obtain ⟨h4b, h5b, h95e⟩ := analyze_pass_inv sqrt cdf ppf fmt eid c t (95/100) ms r95 hg h95
  subst h99e
  subst h95e
  dsimp only
  have hmul : z_crit ppf (95/100) * sqrt (se_ci_sq c t) <
      z_crit ppf (99/100) * sqrt (se_ci_sq c t) :=
    mul_lt_mul_of_pos_right hz hse
  constructor
  · unfold ci_upper_raw ci_lower_raw
    linarith
  · have hu : ci_upper_raw sqrt ppf c t (95/100) ≤ ci_upper_raw sqrt ppf c t (99/100) := by
      unfold ci_upper_raw
      linarith
    have hl : ci_lower_raw sqrt ppf c t (99/100) ≤ ci_lower_raw sqrt ppf c t (95/100) := by
      unfold ci_lower_raw
      linarith
    have h1 := roundTo_mono 6 hu
    have h2 := roundTo_mono 6 hl
    linarith

/-- Result of the 1000/100 vs 1000/200 run at confidence level 0.99. -/
def rC799 : ExperimentResult :=
  { experiment_id := "exp", control := cW, treatment := tW,
    absolute_uplift := roundTo 6 (absolute_uplift_raw cW tW),
    relative_uplift := roundTo 4 (relative_uplift_raw cW tW),
    p_value := roundTo 6 (p_value_raw sqrtId cdfOne cW tW),
    confidence_level := 99/100,
    ci_lower := roundTo 6 (ci_lower_raw sqrtId ppfTable cW tW (99/100)),
    ci_upper := roundTo 6 (ci_upper_raw sqrtId ppfTable cW tW (99/100)),
    is_significant := significant_raw sqrtId cdfOne cW tW (99/100),
    decision := (decision_raw sqrtId cdfOne ppfTable fmt0 cW tW (99/100)).1,
    reason := (decision_raw sqrtId cdfOne ppfTable fmt0 cW tW (99/100)).2 }

/-- Concrete instance of the amended width monotonicity at 1000/100 vs
1000/200, with the tabulated critical values 1.959964 and 2.575829. -/
theorem ciWidth_monotone_amended_witness :
    ci_upper_raw sqrtId ppfTable cW tW (99/100) - ci_lower_raw sqrtId ppfTable cW tW (99/100) >
      ci_upper_raw sqrtId ppfTable cW tW (95/100) - ci_lower_raw sqrtId ppfTable cW tW (95/100) ∧
    rC799.ci_upper - rC799.ci_lower ≥ rC1.ci_upper - rC1.ci_lower :=
  ciWidth_monotone_amended sqrtId cdfOne ppfTable fmt0 "exp" cW tW 100 rC799 rC1
    (by norm_num [z_crit, ppfTable])
    (by norm_num [sqrtId, se_ci_sq, VariantStats.conversion_rate, cW, tW])
    (by norm_num [cW, tW])
    (analyze_pass_eq sqrtId cdfOne ppfTable fmt0 "exp" cW tW (99/100) 100
      (by norm_num [cW, tW]) (by norm_num [cW, tW]) (by norm_num [cW, tW])
      (by norm_num [se_test_sq, p_pool, cW, tW])
      (by norm_num [se_ci_sq, VariantStats.conversion_rate, cW, tW]))
    (analyze_pass_eq sqrtId cdfOne ppfTable fmt0 "exp" cW tW (95/100) 100
      (by norm_num [cW, tW]) (by norm_num [cW, tW]) (by norm_num [cW, tW])
      (by norm_num [se_test_sq, p_pool, cW, tW])
      (by norm_num [se_ci_sq, VariantStats.conversion_rate, cW, tW]))

end ABStats
